import Mathlib

/-!
Verification development for the Todoist MCP server repository.

The development shallowly embeds the repository's core logic:

* `extractArray` and its helpers from `src/utils/array-helpers.ts`;
* the daily-overview aggregation from the `get_daily_overview` case of
  `src/poke-mcp-server.ts` (task categorization, priority sort, truncation);
* the authentication middleware and the `tools/call` dispatchers of the two
  HTTP servers (`src/poke-mcp-server.ts` and the SSE entry point);
* the always-failing `convert_to_subtask` / `promote_subtask` tools of
  `src/poke-server.ts`.

JavaScript values are embedded as the inductive type `JSVal`.  Dates are
modelled at day granularity (an `Int` day index), matching the design's
stated "day granularity, not time-of-day" comparison; an unparseable date
string (JavaScript's `Invalid Date`, whose comparisons are all false) is
the `JsDate.invalid` constructor.  Remote (Todoist) API calls are modelled
by oracles supplied as arguments, and every dispatcher returns, next to its
response, the list of remote operations it invoked, so that "the remote
collaborator is never called" is the statement that this list is empty.
All definitions are total functions, which models the fact that the
embedded code paths never throw past the modelled catch boundaries.
-/

/-- Embedded JavaScript value (the `any` type of the TypeScript sources). -/
inductive JSVal : Type
  | null
  | undefined
  | bool (b : Bool)
  | num (n : Int)
  | str (s : String)
  | arr (elems : List JSVal)
  | obj (fields : List (String × JSVal))

/-- JavaScript truthiness of an embedded value. -/
def JSVal.truthy : JSVal → Bool
  | .null => false
  | .undefined => false
  | .bool b => b
  | .num n => n != 0
  | .str s => s != ""
  | .arr _ => true
  | .obj _ => true

/-- `Array.isArray`. -/
def JSVal.isArrayB : JSVal → Bool
  | .arr _ => true
  | _ => false

/-- JavaScript `typeof v === "object"` (true for `null`, arrays and objects). -/
def JSVal.isObjectType : JSVal → Bool
  | .null => true
  | .arr _ => true
  | .obj _ => true
  | _ => false

/-- First binding of a key in an embedded object's field list. -/
def lookupField : List (String × JSVal) → String → Option JSVal
  | [], _ => none
  | (k, v) :: rest, key => if k = key then some v else lookupField rest key

/-- JavaScript property access `v.key`: `undefined` on absence or on a
primitive/array receiver (the embedded arrays carry no named properties). -/
def JSVal.getProp (v : JSVal) (key : String) : JSVal :=
  match v with
  | .obj fields => (lookupField fields key).getD .undefined
  | _ => .undefined

/-- `Object.values`, in defined property order. -/
def JSVal.objectValues : JSVal → List JSVal
  | .obj fields => fields.map Prod.snd
  | .arr l => l
  | _ => []

/-- The element list of an array value (and `[]` on non-arrays). -/
def JSVal.arrElems : JSVal → List JSVal
  | .arr l => l
  | _ => []

/-- `extractArray` from `src/utils/array-helpers.ts`: Case 1 a direct array;
Case 2 a truthy value whose `results` property is an array; Case 3 a truthy
value of object type, scanned via `Object.values(...).find(Array.isArray)`;
Case 4 the empty array. -/
def extractArray (response : JSVal) : List JSVal :=
  if response.isArrayB then
    response.arrElems
  else if response.truthy && (response.getProp "results").isArrayB then
    (response.getProp "results").arrElems
  else if response.truthy && response.isObjectType then
    match response.objectValues.find? JSVal.isArrayB with
    | some v => v.arrElems
    | none => []
  else
    []

/-- The array-normalizer contract exactly as the specification words it:
an array is returned unchanged; an object whose `results` property is an
array yields that array; any other object yields its first array-valued
property in defined property order; every other input yields the empty
array. -/
def extractArraySpec : JSVal → List JSVal
  | .arr l => l
  | .obj fields =>
    match lookupField fields "results" with
    | some (.arr l) => l
    | _ =>
      match (fields.map Prod.snd).find? JSVal.isArrayB with
      | some (.arr l) => l
      | _ => []
  | _ => []

/-- A JavaScript `Date` at day granularity: either a valid date, carrying its
day index, or the `Invalid Date` produced by parsing an unparseable string
(all of whose comparisons are false and whose `toDateString()` differs from
every real date's). -/
inductive JsDate : Type
  | valid (day : Int)
  | invalid
  deriving DecidableEq, Repr

/-- `taskDate < today` on a day-granular date (false for `Invalid Date`,
mirroring `NaN` comparisons). -/
def jsDateLt : JsDate → Int → Bool
  | .valid d, t => decide (d < t)
  | .invalid, _ => false

/-- `taskDate.toDateString() === today.toDateString()` at day granularity
(false for `Invalid Date`, whose `toDateString()` is `"Invalid Date"`). -/
def jsDateSameDay : JsDate → Int → Bool
  | .valid d, t => decide (d = t)
  | .invalid, _ => false

/-- `taskDate >= bound` on a day-granular date (false for `Invalid Date`). -/
def jsDateGe : JsDate → Int → Bool
  | .valid d, t => decide (t ≤ d)
  | .invalid, _ => false

/-- `taskDate <= bound` on a day-granular date (false for `Invalid Date`). -/
def jsDateLe : JsDate → Int → Bool
  | .valid d, t => decide (d ≤ t)
  | .invalid, _ => false

/-- A Todoist task as the servers consume it.  `due` is the parse result of
`task.due?.date`: `none` when the task has no due descriptor or no date
string, `some .invalid` when the string does not parse. -/
structure PokeTask where
  id : String := ""
  content : String := ""
  description : Option String := none
  priority : Option Nat := none
  isCompleted : Bool := false
  due : Option JsDate := none
  dueString : Option String := none
  projectId : Option String := none
  deriving DecidableEq, Repr

/-- The `total_counts` record of the daily overview. -/
structure Counts where
  overdue : Nat := 0
  today : Nat := 0
  upcoming : Nat := 0
  completed_today : Nat := 0
  deriving DecidableEq, Repr

/-- The `overview` accumulator of `get_daily_overview`. -/
structure Overview where
  date : String := ""
  overdue : List PokeTask := []
  today : List PokeTask := []
  upcoming : List PokeTask := []
  completed_today : List PokeTask := []
  total_counts : Counts := {}
  deriving DecidableEq, Repr

/-- One iteration of the categorization loop of `get_daily_overview`:
`if (!task) continue`, then the else-if chain pushing the task into the
first bucket whose test holds and incrementing that bucket's count. -/
def classifyStep (today : Int) (ov : Overview) (task? : Option PokeTask) : Overview :=
  match task? with
  | none => ov
  | some task =>
    match task.due with
    | none => ov
    | some d =>
      if jsDateLt d today && !task.isCompleted then
        { ov with overdue := ov.overdue ++ [task],
                  total_counts := { ov.total_counts with overdue := ov.total_counts.overdue + 1 } }
      else if jsDateSameDay d today && !task.isCompleted then
        { ov with today := ov.today ++ [task],
                  total_counts := { ov.total_counts with today := ov.total_counts.today + 1 } }
      else if jsDateGe d (today + 1) && jsDateLe d (today + 7) && !task.isCompleted then
        { ov with upcoming := ov.upcoming ++ [task],
                  total_counts := { ov.total_counts with upcoming := ov.total_counts.upcoming + 1 } }
      else if jsDateSameDay d today && task.isCompleted then
        { ov with completed_today := ov.completed_today ++ [task],
                  total_counts := { ov.total_counts with completed_today := ov.total_counts.completed_today + 1 } }
      else
        ov

/-- The whole categorization loop (`for (const task of dailyTasksArray)`),
starting from a given accumulator. -/
def categorize (today : Int) (tasks : List (Option PokeTask)) (ov : Overview) : Overview :=
  tasks.foldl (classifyStep today) ov

/-- `a.priority || 4`: the sort key, with a falsy priority read as 4. -/
def priorityKey (t : PokeTask) : Nat :=
  match t.priority with
  | some p => if p = 0 then 4 else p
  | none => 4

/-- The `sortByPriority` comparator as a stable-sort ordering:
`(a.priority || 4) - (b.priority || 4)` sorts ascending by `priorityKey`. -/
def priorityLe (a b : PokeTask) : Bool :=
  decide (priorityKey a ≤ priorityKey b)

/-- The "Sort and limit results" block: the three priority buckets are
stably sorted by `sortByPriority` and sliced to the limit; `completed_today`
is only sliced. -/
def sortAndLimit (limit : Nat) (ov : Overview) : Overview :=
  { ov with
    overdue := (ov.overdue.mergeSort priorityLe).take limit,
    today := (ov.today.mergeSort priorityLe).take limit,
    upcoming := (ov.upcoming.mergeSort priorityLe).take limit,
    completed_today := ov.completed_today.take limit }

/-- The arguments of the `get_daily_overview` tool, after JavaScript's
defaulting (`toolArgs.date`, `toolArgs.limit`, `toolArgs.include_projects`
looked up from the raw arguments object). -/
structure DailyOverviewArgs where
  date : Option String := none
  includeProjects : Bool := true
  limit : Option Int := none
  deriving Repr

/-- `toolArgs.limit || 10` followed by `slice(0, dailyLimit)`: a falsy (zero)
limit falls back to 10, and a negative limit slices to the empty list. -/
def resolveLimit : Option Int → Nat
  | some n => if n = 0 then 10 else n.toNat
  | none => 10

/-- The ambient wall clock of one request: `new Date()` reduced to the
day-granular values the handler derives from it (`today` from
`getFullYear/getMonth/getDate`, the ISO date from `toISOString`). -/
structure Clock where
  today : Int
  isoDate : String
  isoTimestamp : String := ""

/-- The bucket computation of `get_daily_overview`: the overview `date`
field comes from the date argument (defaulted to the clock's ISO date), but
categorization compares against `today` derived from the wall clock, and the
buckets are then sorted and truncated. -/
def computeDailyOverview (args : DailyOverviewArgs) (clock : Clock)
    (tasks : List (Option PokeTask)) : Overview :=
  let dailyDate := args.date.getD clock.isoDate
  let dailyLimit := resolveLimit args.limit
  sortAndLimit dailyLimit (categorize clock.today tasks { date := dailyDate })

/-- The specification's overdue test: a parseable due date strictly before
today, on a task that is not completed. -/
def isOverdueAt (today : Int) (t : PokeTask) : Bool :=
  match t.due with
  | some (.valid d) => decide (d < today) && !t.isCompleted
  | _ => false

/-- The specification's today test: a parseable due date equal to today, on
a task that is not completed. -/
def isDueTodayAt (today : Int) (t : PokeTask) : Bool :=
  match t.due with
  | some (.valid d) => decide (d = today) && !t.isCompleted
  | _ => false

/-- The specification's upcoming test: a parseable due date after today and
at most today plus seven days, on a task that is not completed. -/
def isUpcomingAt (today : Int) (t : PokeTask) : Bool :=
  match t.due with
  | some (.valid d) => decide (today < d) && decide (d ≤ today + 7) && !t.isCompleted
  | _ => false

/-- The specification's completed-today test: a parseable due date equal to
today, on a completed task. -/
def isCompletedTodayAt (today : Int) (t : PokeTask) : Bool :=
  match t.due with
  | some (.valid d) => decide (d = today) && t.isCompleted
  | _ => false

/-- Fixture for the wall-clock experiment: an incomplete task due on day 5. -/
def c2Task : PokeTask :=
  { id := "1", content := "pay rent", priority := some 1, due := some (.valid 5) }

/-- Fixture: the `get_daily_overview` arguments carry an explicit as-of date. -/
def c2Args : DailyOverviewArgs := { date := some "2025-01-05" }

/-- Fixture: a wall clock standing on the as-of day itself. -/
def c2ClockOnDay : Clock := { today := 5, isoDate := "2025-01-05" }

/-- Fixture: a wall clock standing two days after the as-of day. -/
def c2ClockLater : Clock := { today := 7, isoDate := "2025-01-07" }

/-- Fixture: fifteen incomplete tasks all due the day before day 0, with
priorities cycling through 1..4. -/
def c4Tasks : List (Option PokeTask) :=
  (List.range 15).map fun i =>
    some { priority := some (i % 4 + 1), due := some (.valid (-1)) }

/-- `s.startsWith(p)`, over the character list of the string. -/
def strStartsWith (s p : String) : Bool :=
  p.data.isPrefixOf s.data

/-- `s.substring(n)`, over the character list of the string. -/
def strDrop (s : String) (n : Nat) : String :=
  String.mk (s.data.drop n)

mutual

/-- JavaScript template-literal rendering of a value. -/
def jsDisplay : JSVal → String
  | .null => "null"
  | .undefined => "undefined"
  | .bool b => cond b "true" "false"
  | .num n => toString n
  | .str s => s
  | .arr l => jsDisplayList l
  | .obj _ => "[object Object]"

/-- Comma-joined rendering of the elements of an array value. -/
def jsDisplayList : List JSVal → String
  | [] => ""
  | [x] => jsDisplay x
  | x :: xs => jsDisplay x ++ "," ++ jsDisplayList xs

end

/-- The remote Todoist operations the embedded handlers can invoke.  Each
dispatcher returns the list of operations it performed, so an empty list
states that the remote collaborator was never called. -/
inductive RemoteCall : Type
  | addTask
  | getTasks
  | updateTask
  | closeTask
  | deleteTask
  | getProjects
  | getSections
  | addProject
  | addSection
  | addComment
  | getComments
  | getLabels
  | addLabel
  | updateLabel
  | deleteLabel
  | getTask
  deriving DecidableEq, Repr

/-- A Todoist project as the servers consume it. -/
structure PokeProject where
  id : String := ""
  name : String := ""
  color : Option String := none
  deriving DecidableEq, Repr

/-- The payload of `apiClient.addTask` / `updateTask` as the poke server
builds it: raw argument values (possibly `undefined`). -/
structure AddTaskPayload where
  content : JSVal := .undefined
  description : JSVal := .undefined
  dueString : JSVal := .undefined
  priority : JSVal := .undefined
  projectId : JSVal := .undefined

/-- `toolArgs.key`: raw argument lookup, `undefined` when absent. -/
def argVal (args : List (String × JSVal)) (key : String) : JSVal :=
  (lookupField args key).getD .undefined

/-- Oracle for the Todoist client used by the poke server: the outcome of
each remote operation.  Responses are modelled post-normalization (the raw
JSON shapes are the subject of `extractArray`); a `none` list element models
a null entry, which the daily-overview loop skips. -/
structure Remote where
  addTask : AddTaskPayload → Except String PokeTask
  getTasks : JSVal → Except String (List (Option PokeTask))
  updateTask : JSVal → AddTaskPayload → Except String PokeTask
  closeTask : JSVal → Except String Unit
  deleteTask : JSVal → Except String Unit
  getProjects : Except String (List (Option PokeProject))

/-- A JSON-RPC response body: a `result` payload or an `error` record. -/
inductive RpcBody : Type
  | result (v : JSVal)
  | error (code : Int) (message : String) (data : Option JSVal)

/-- A JSON-RPC response envelope. -/
structure RpcResponse where
  id : JSVal
  body : RpcBody

/-- Outcome of the `authenticate` middleware of `src/poke-mcp-server.ts`:
either `next()` or an early JSON-RPC-shaped rejection with an HTTP status. -/
inductive AuthOutcome : Type
  | proceed
  | reject (status : Nat) (code : Int) (message : String)
  deriving DecidableEq, Repr

/-- The `authenticate` middleware of `src/poke-mcp-server.ts`: without a
configured `MCP_AUTH_TOKEN` every request proceeds; otherwise a missing
header, a header not starting with `Bearer `, or a token different from the
secret is rejected with a 401 response. -/
def pokeAuthenticate (mcpAuthToken : Option String) (authHeader : Option String) : AuthOutcome :=
  match mcpAuthToken with
  | none => .proceed
  | some secret =>
    match authHeader with
    | none => .reject 401 (-32600) "Missing Authorization header"
    | some h =>
      if !strStartsWith h "Bearer " then
        .reject 401 (-32600) "Invalid Authorization header format. Use: Bearer YOUR_TOKEN"
      else if strDrop h 7 != secret then
        .reject 401 (-32600) "Invalid authentication token"
      else
        .proceed

/-- Outcome of the SSE server's `authenticate` middleware: `next()` or a
rejection with an HTTP status, error label and message. -/
inductive SseAuthOutcome : Type
  | proceed
  | reject (status : Nat) (error : String) (message : String)
  deriving DecidableEq, Repr

/-- The `authenticate` middleware of the SSE entry point: a missing header is
rejected with 401; otherwise the token is the rest of the header when it
starts with `Bearer ` and the whole header otherwise, and a token different
from the secret is rejected with 403. -/
def sseAuthenticate (mcpAuthToken : String) (authHeader : Option String) : SseAuthOutcome :=
  match authHeader with
  | none =>
    .reject 401 "Unauthorized"
      "Missing Authorization header. Use: Authorization: Bearer YOUR_MCP_AUTH_TOKEN"
  | some h =>
    let token := if strStartsWith h "Bearer " then strDrop h 7 else h
    if token != mcpAuthToken then
      .reject 403 "Forbidden" "Invalid authentication token"
    else
      .proceed

/-- `x || d` on an optional string: JavaScript's falsy check replaces both
absence and the empty string by the default. -/
def orFalsy : Option String → String → String
  | some s, d => if s = "" then d else s
  | none, d => d

/-- Template rendering of an optional number (`undefined` when absent). -/
def displayOptNat : Option Nat → String
  | some p => toString p
  | none => "undefined"

/-- The success message of the `create_task` case. -/
def createTaskMessage (task : PokeTask) : String :=
  "Task created successfully:\nID: " ++ task.id ++ "\nTitle: " ++ task.content
    ++ "\nDescription: " ++ orFalsy task.description "None"
    ++ "\nPriority: " ++ displayOptNat task.priority
    ++ "\nDue: " ++ orFalsy task.dueString "None"
    ++ "\nProject: " ++ orFalsy task.projectId "Inbox"

/-- The success message of the `update_task` case. -/
def updateTaskMessage (task : PokeTask) : String :=
  "Task updated successfully:\nID: " ++ task.id ++ "\nTitle: " ++ task.content

/-- The `P`-tag of a task's priority (`task.priority ? ... : "P4"`). -/
def priorityTag (t : PokeTask) : String :=
  match t.priority with
  | some p => if p = 0 then "P4" else "P" ++ toString p
  | none => "P4"

/-- One line of the `get_tasks` listing. -/
def formatTaskLine (task : PokeTask) : String :=
  (if task.isCompleted then "✓" else "○") ++ " [" ++ priorityTag task ++ "] "
    ++ task.content ++ " (ID: " ++ task.id ++ ") - " ++ orFalsy task.projectId "Inbox"
    ++ (if orFalsy task.dueString "" = "" then "" else " - Due: " ++ orFalsy task.dueString "")

/-- One line of the `get_projects` listing. -/
def formatProjectLine (p : PokeProject) : String :=
  p.name ++ " (ID: " ++ p.id ++ ") " ++ (if orFalsy p.color "" = "" then "" else "🎨")

/-- `formatArrayResponse` from `src/utils/array-helpers.ts`, applied after
normalization: count of all elements, one formatted line per present
element (a null element is counted but not rendered; rendering one would
throw in the source and no fixture produces one). -/
def formatListResponse {α : Type} (items : List (Option α)) (itemName : String)
    (formatter : α → String) : String :=
  if items.length = 0 then
    "No " ++ itemName ++ " found."
  else
    "Found " ++ toString items.length ++ " " ++ itemName ++ "(s):\n"
      ++ String.intercalate "\n" ((items.filterMap id).map formatter)

/-- The tool arguments of `get_daily_overview`, read from the raw arguments
object with JavaScript's defaulting (`toolArgs.date || default`,
`toolArgs.limit || 10`, `toolArgs.include_projects !== false`). -/
def parseDailyArgs (args : List (String × JSVal)) : DailyOverviewArgs :=
  { date := match argVal args "date" with
      | v => if v.truthy then some (jsDisplay v) else none,
    includeProjects := match argVal args "include_projects" with
      | .bool false => false
      | _ => true,
    limit := match argVal args "limit" with
      | .num n => some n
      | _ => none }

/-- One task line of the daily-overview report. -/
def dailyTaskLine (includeProjects : Bool) (t : PokeTask) : String :=
  "• " ++ priorityTag t ++ " " ++ t.content
    ++ (if includeProjects && !(orFalsy t.projectId "" = "") then
          " [" ++ orFalsy t.projectId "" ++ "]" else "")
    ++ (if orFalsy t.dueString "" = "" then "" else " - Due: " ++ orFalsy t.dueString "")

/-- One completed-task line of the daily-overview report. -/
def dailyCompletedLine (includeProjects : Bool) (t : PokeTask) : String :=
  "• ✓ " ++ t.content
    ++ (if includeProjects && !(orFalsy t.projectId "" = "") then
          " [" ++ orFalsy t.projectId "" ++ "]" else "")

/-- The formatted daily-overview report. -/
def renderDailyOverview (includeProjects : Bool) (ov : Overview) : String :=
  "📅 Daily Overview for " ++ ov.date ++ ":\n\n"
    ++ (if ov.total_counts.overdue > 0 then
          "🚨 OVERDUE (" ++ toString ov.total_counts.overdue ++ " total):\n"
            ++ String.join (ov.overdue.map fun t => dailyTaskLine includeProjects t ++ "\n")
            ++ "\n"
        else "")
    ++ (if ov.total_counts.today > 0 then
          "📝 TODAY (" ++ toString ov.total_counts.today ++ " total):\n"
            ++ String.join (ov.today.map fun t => dailyTaskLine includeProjects t ++ "\n")
            ++ "\n"
        else "")
    ++ (if ov.total_counts.upcoming > 0 then
          "📅 UPCOMING (" ++ toString ov.total_counts.upcoming ++ " total):\n"
            ++ String.join (ov.upcoming.map fun t => dailyTaskLine includeProjects t ++ "\n")
            ++ "\n"
        else "")
    ++ (if ov.total_counts.completed_today > 0 then
          "✅ COMPLETED TODAY (" ++ toString ov.total_counts.completed_today ++ " total):\n"
            ++ String.join (ov.completed_today.map fun t => dailyCompletedLine includeProjects t ++ "\n")
        else "")
    ++ (if ov.total_counts.overdue = 0 && ov.total_counts.today = 0
          && ov.total_counts.upcoming = 0 && ov.total_counts.completed_today = 0 then
          "🎉 No tasks found for today! You're all caught up.\n"
        else "")

/-- The `health_check` result string (`JSON.stringify(..., null, 2)`). -/
def healthCheckText (authEnabled : Bool) (timestamp : String) : String :=
  "\x7b\n  \"status\": \"healthy\",\n  \"service\": \"todoist-mcp-server-poke\",\n"
    ++ "  \"version\": \"1.0.0\",\n  \"transport\": \"http\",\n  \"endpoint\": \"/mcp\",\n"
    ++ "  \"authentication\": \"" ++ (if authEnabled then "enabled" else "disabled")
    ++ "\",\n  \"tools\": 29,\n  \"timestamp\": \"" ++ timestamp
    ++ "\",\n  \"todoist_api\": \"connected\"\n\x7d"

/-- The inner `switch (toolName)` of the `tools/call` case of
`src/poke-mcp-server.ts` (the body of its `try` block): the result string of
the matched tool, or the propagated error of a failed remote call, together
with the remote operations performed.  The `default` case produces the
"not yet implemented" success string without calling anything. -/
def pokeRunTool (remote : Remote) (authEnabled : Bool) (clock : Clock)
    (toolName : JSVal) (args : List (String × JSVal)) :
    Except String String × List RemoteCall :=
  match toolName with
  | .str name =>
    if name = "create_task" then
      match remote.addTask
          { content := argVal args "content", description := argVal args "description",
            dueString := argVal args "due_string", priority := argVal args "priority",
            projectId := argVal args "project_id" } with
      | .ok task => (.ok (createTaskMessage task), [.addTask])
      | .error m => (.error m, [.addTask])
    else if name = "get_tasks" then
      match remote.getTasks (argVal args "project_id") with
      | .ok tasks => (.ok (formatListResponse tasks "task" formatTaskLine), [.getTasks])
      | .error m => (.error m, [.getTasks])
    else if name = "update_task" then
      match remote.updateTask (argVal args "task_id")
          { content := argVal args "content", description := argVal args "description",
            dueString := argVal args "due_string", priority := argVal args "priority" } with
      | .ok task => (.ok (updateTaskMessage task), [.updateTask])
      | .error m => (.error m, [.updateTask])
    else if name = "complete_task" then
      match remote.closeTask (argVal args "task_id") with
      | .ok _ => (.ok ("Task " ++ jsDisplay (argVal args "task_id") ++ " marked as complete."),
          [.closeTask])
      | .error m => (.error m, [.closeTask])
    else if name = "delete_task" then
      match remote.deleteTask (argVal args "task_id") with
      | .ok _ => (.ok ("Task " ++ jsDisplay (argVal args "task_id") ++ " deleted successfully."),
          [.deleteTask])
      | .error m => (.error m, [.deleteTask])
    else if name = "get_projects" then
      match remote.getProjects with
      | .ok projects =>
          (.ok (formatListResponse projects "project" formatProjectLine), [.getProjects])
      | .error m => (.error m, [.getProjects])
    else if name = "test_connection" then
      match remote.getProjects with
      | .ok projects =>
          (.ok ("✅ Connection successful! Found " ++ toString projects.length
             ++ " projects in your Todoist account."), [.getProjects])
      | .error m => (.error m, [.getProjects])
    else if name = "get_daily_overview" then
      match remote.getTasks .undefined with
      | .ok tasks =>
          (.ok (renderDailyOverview (parseDailyArgs args).includeProjects
             (computeDailyOverview (parseDailyArgs args) clock tasks)), [.getTasks])
      | .error m => (.error m, [.getTasks])
    else if name = "health_check" then
      (.ok (healthCheckText authEnabled clock.isoTimestamp), [])
    else
      (.ok ("Tool " ++ name ++ " is not yet implemented in this simplified version."), [])
  | name =>
    (.ok ("Tool " ++ jsDisplay name ++ " is not yet implemented in this simplified version."), [])

/-- The MCP success payload `{content: [{type: "text", text: ...}]}`. -/
def pokeContentResult (s : String) : JSVal :=
  .obj [("content", .arr [.obj [("type", .str "text"), ("text", .str s)]])]

/-- The full `tools/call` case of `src/poke-mcp-server.ts`: the `try` block's
outcome wrapped as a content result, or the `catch` block's `-32603`
"Internal error" response carrying the error message as data.  The catch
never rethrows: the function is total and always returns a response. -/
def pokeToolCall (remote : Remote) (authEnabled : Bool) (clock : Clock)
    (msgId : JSVal) (toolName : JSVal) (args : List (String × JSVal)) :
    RpcResponse × List RemoteCall :=
  match pokeRunTool remote authEnabled clock toolName args with
  | (.ok result, log) => (⟨msgId, .result (pokeContentResult result)⟩, log)
  | (.error m, log) => (⟨msgId, .error (-32603) "Internal error" (some (.str m))⟩, log)

/-- The `params` member of a tool-invocation request. -/
structure McpCallParams where
  name : JSVal := .undefined
  arguments : Option (List (String × JSVal)) := none

/-- A well-formed inbound JSON-RPC message (the non-object-body rejection of
the source is prior to this model). -/
structure McpMessage where
  id : JSVal := .undefined
  method : JSVal := .undefined
  params : Option McpCallParams := none

/-- `message.params?.name`. -/
def msgToolName (msg : McpMessage) : JSVal :=
  match msg.params with
  | some p => p.name
  | none => .undefined

/-- `message.params?.arguments || {}`. -/
def msgToolArgs (msg : McpMessage) : List (String × JSVal) :=
  match msg.params with
  | some p => p.arguments.getD []
  | none => []

/-- The names of the 29 tools registered in the `tools/list` array of
`src/poke-mcp-server.ts`, in declaration order. -/
def pokeRegisteredToolNames : List String :=
  ["create_task", "get_tasks", "update_task", "complete_task", "delete_task",
   "bulk_create_tasks", "bulk_update_tasks", "bulk_delete_tasks", "bulk_complete_tasks",
   "get_projects", "get_sections", "create_project", "create_section",
   "create_comment", "get_comments",
   "get_labels", "create_label", "update_label", "delete_label", "get_label_stats",
   "create_subtask", "bulk_create_subtasks", "convert_to_subtask", "promote_subtask",
   "get_task_hierarchy",
   "get_daily_overview", "test_all_features", "test_performance", "health_check"]

/-- The `initialize` result payload. -/
def pokeInitializeResult : JSVal :=
  .obj [("protocolVersion", .str "2024-11-05"),
        ("capabilities", .obj [("tools", .obj [("listChanged", .bool true)])]),
        ("serverInfo", .obj [("name", .str "Todoist Task Manager"),
                             ("version", .str "1.0.0")])]

/-- The `tools/list` result payload.  The registered names match the source's
tool array; the per-tool description and input-schema objects are not
modelled, as no claim concerns their contents. -/
def pokeToolsListResult : JSVal :=
  .obj [("tools", .arr (pokeRegisteredToolNames.map fun n => .obj [("name", .str n)]))]

/-- The method dispatch of the `/mcp` endpoint of `src/poke-mcp-server.ts`. -/
def pokeHandleMessage (remote : Remote) (authEnabled : Bool) (clock : Clock)
    (msg : McpMessage) : RpcResponse × List RemoteCall :=
  match msg.method with
  | .str "initialize" => (⟨msg.id, .result pokeInitializeResult⟩, [])
  | .str "tools/list" => (⟨msg.id, .result pokeToolsListResult⟩, [])
  | .str "tools/call" =>
      pokeToolCall remote authEnabled clock msg.id (msgToolName msg) (msgToolArgs msg)
  | m =>
      (⟨msg.id, .error (-32601) "Method not found"
        (some (.str ("Method " ++ jsDisplay m ++ " not found")))⟩, [])

/-- Outcome of a protected endpoint: an authentication rejection (the
dispatcher is never entered and no remote call happens), or the dispatcher's
response with its remote-call log. -/
inductive EndpointResult : Type
  | authReject (status : Nat) (resp : RpcResponse)
  | handled (resp : RpcResponse) (calls : List RemoteCall)

/-- The `/mcp` POST route of `src/poke-mcp-server.ts`: the `authenticate`
middleware runs first; only on `next()` does the dispatcher run. -/
def pokeMcpPost (mcpAuthToken : Option String) (authHeader : Option String)
    (remote : Remote) (clock : Clock) (msg : McpMessage) : EndpointResult :=
  match pokeAuthenticate mcpAuthToken authHeader with
  | .reject status code message => .authReject status ⟨.null, .error code message none⟩
  | .proceed =>
    match pokeHandleMessage remote mcpAuthToken.isSome clock msg with
    | (resp, log) => .handled resp log

/-- A required-argument shape: a string-valued or array-valued key. -/
inductive ArgReq : Type
  | str (key : String)
  | arr (key : String)

/-- Check one required argument against the raw arguments object. -/
def checkArgReq (args : List (String × JSVal)) : ArgReq → Bool
  | .str k =>
    match lookupField args k with
    | some (.str _) => true
    | _ => false
  | .arr k =>
    match lookupField args k with
    | some (.arr _) => true
    | _ => false

/-- Check a list of required arguments. -/
def checkArgReqs (args : List (String × JSVal)) (reqs : List ArgReq) : Bool :=
  reqs.all (checkArgReq args)

/-- Modelled from the spec: `type-guards.ts` is not among the sources; per
the tool registry, the `todoist_task_create` guard requires the `content`
string argument. -/
def isCreateTaskArgs (args : List (String × JSVal)) : Bool :=
  checkArgReqs args [.str "content"]

/-- What a registered SSE tool case does after its guard passes. -/
inductive SseAction : Type
  | callOp (op : RemoteCall)
  | alwaysFail (msg : String)

/-- Oracle for the SSE server's handlers: the outcome of each remote
operation as the handler's result string or propagated error. -/
abbrev SseRemote : Type := RemoteCall → Except String String

/-- First binding of a key in a string-keyed association list (the switch
semantics of the SSE dispatcher: first matching case label wins). -/
def lookupAssoc {β : Type} : List (String × β) → String → Option β
  | [], _ => none
  | (k, v) :: rest, key => if k = key then some v else lookupAssoc rest key

/-- Modelled from the spec: the guard modules (`type-guards.ts`) and handler
modules (`handlers/*.ts`) of the SSE entry point are not among the sources.
Per the design, each registered tool validates its required arguments and
then forwards one operation to the remote client, propagating any failure
unmodified; `todoist_task_convert_to_subtask` and `todoist_subtask_promote`
are intentionally unimplemented and always fail with a descriptive message.
The case labels are exactly the switch labels of the source dispatcher. -/
def sseToolTable : List (String × ((List (String × JSVal) → Bool) × SseAction)) :=
  [("todoist_task_create", (isCreateTaskArgs, .callOp .addTask)),
   ("todoist_task_get", (fun _ => true, .callOp .getTasks)),
   ("todoist_task_update", (fun a => checkArgReqs a [.str "task_name"], .callOp .updateTask)),
   ("todoist_task_delete", (fun a => checkArgReqs a [.str "task_name"], .callOp .deleteTask)),
   ("todoist_task_complete", (fun a => checkArgReqs a [.str "task_name"], .callOp .closeTask)),
   ("todoist_tasks_bulk_create", (fun a => checkArgReqs a [.arr "tasks"], .callOp .addTask)),
   ("todoist_tasks_bulk_update", (fun a => checkArgReqs a [.arr "updates"], .callOp .updateTask)),
   ("todoist_tasks_bulk_delete", (fun _ => true, .callOp .deleteTask)),
   ("todoist_tasks_bulk_complete", (fun _ => true, .callOp .closeTask)),
   ("todoist_project_get", (fun _ => true, .callOp .getProjects)),
   ("todoist_section_get", (fun a => checkArgReqs a [.str "project_id"], .callOp .getSections)),
   ("todoist_project_create", (fun a => checkArgReqs a [.str "name"], .callOp .addProject)),
   ("todoist_section_create",
     (fun a => checkArgReqs a [.str "project_id", .str "name"], .callOp .addSection)),
   ("todoist_comment_create",
     (fun a => checkArgReqs a [.str "task_id", .str "content"], .callOp .addComment)),
   ("todoist_comment_get", (fun a => checkArgReqs a [.str "task_id"], .callOp .getComments)),
   ("todoist_label_get", (fun _ => true, .callOp .getLabels)),
   ("todoist_label_create", (fun a => checkArgReqs a [.str "name"], .callOp .addLabel)),
   ("todoist_label_update", (fun a => checkArgReqs a [.str "label_id"], .callOp .updateLabel)),
   ("todoist_label_delete", (fun a => checkArgReqs a [.str "label_name"], .callOp .deleteLabel)),
   ("todoist_label_stats", (fun _ => true, .callOp .getLabels)),
   ("todoist_subtask_create",
     (fun a => checkArgReqs a [.str "parent_task_id", .str "content"], .callOp .addTask)),
   ("todoist_subtasks_bulk_create",
     (fun a => checkArgReqs a [.str "parent_task_id", .arr "subtasks"], .callOp .addTask)),
   ("todoist_task_convert_to_subtask",
     (fun a => checkArgReqs a [.str "task_id", .str "parent_task_id"],
      .alwaysFail "Converting existing tasks to subtasks is not supported in this API version. Please create a new subtask instead.")),
   ("todoist_subtask_promote",
     (fun a => checkArgReqs a [.str "subtask_id"],
      .alwaysFail "Promoting subtasks to main tasks is not supported in this API version. Please recreate the task as a main task instead.")),
   ("todoist_task_hierarchy_get", (fun a => checkArgReqs a [.str "task_id"], .callOp .getTask)),
   ("todoist_test_connection", (fun _ => true, .callOp .getProjects)),
   ("todoist_test_all_features", (fun _ => true, .callOp .getProjects)),
   ("todoist_test_performance", (fun _ => true, .callOp .getProjects))]

/-- The tool names registered in the SSE dispatcher's switch. -/
def sseRegisteredToolNames : List String :=
  sseToolTable.map Prod.fst

/-- The inner `switch (toolName)` of the SSE `/message` dispatcher's
`tools/call` branch (the body of its `try` block).  A registered tool whose
guard fails throws `Invalid arguments for <tool>`; one whose handler's
remote call fails propagates that error; on success the `result` variable is
set.  The `default` case does not throw: it assigns a `-32601`
"Method not found" response object and leaves `result` undefined. -/
def sseRunTool (remote : SseRemote) (toolName : JSVal) (args : List (String × JSVal)) :
    Except String (Option String × Option RpcBody) × List RemoteCall :=
  match toolName with
  | .str name =>
    (match lookupAssoc sseToolTable name with
     | some (guard, act) =>
       if guard args then
         match act with
         | .callOp op =>
           (match remote op with
            | .ok s => (.ok (some s, none), [op])
            | .error m => (.error m, [op]))
         | .alwaysFail m => (.error m, [])
       else
         (.error ("Invalid arguments for " ++ name), [])
     | none =>
       (.ok (none, some (.error (-32601) "Method not found"
          (some (.str ("Tool " ++ name ++ " not found"))))), []))
  | v =>
    (.ok (none, some (.error (-32601) "Method not found"
       (some (.str ("Tool " ++ jsDisplay v ++ " not found"))))), [])

/-- The full `tools/call` branch of the SSE `/message` dispatcher.  After the
switch, the source runs `if (result !== undefined) ... else ...`, which
rebuilds `response` from `result` in both arms — discarding the response
object the `default` case had assigned (the second component of the switch
outcome is dead).  A thrown error is caught and returned as a `-32602`
"Invalid params" response carrying the message as data; nothing is ever
rethrown. -/
def sseToolCall (remote : SseRemote) (msgId : JSVal) (toolName : JSVal)
    (args : List (String × JSVal)) : RpcResponse × List RemoteCall :=
  match sseRunTool remote toolName args with
  | (.ok out, log) =>
    (match out.1 with
     | some s => ⟨msgId, .result (.str s)⟩
     | none => ⟨msgId, .result (.obj [("success", .bool true)])⟩, log)
  | (.error m, log) => (⟨msgId, .error (-32602) "Invalid params" (some (.str m))⟩, log)

/-- The `tools/list` payload of the SSE server.  `ALL_TOOLS` is not among the
sources; only the registered names are modelled. -/
def sseAllToolsVal : JSVal :=
  .arr (sseRegisteredToolNames.map fun n => .obj [("name", .str n)])

/-- The method dispatch of the SSE `/message` endpoint. -/
def sseHandleMessage (remote : SseRemote) (msg : McpMessage) : RpcResponse × List RemoteCall :=
  match msg.method with
  | .str "tools/list" => (⟨msg.id, .result (.obj [("tools", sseAllToolsVal)])⟩, [])
  | .str "tools/call" => sseToolCall remote msg.id (msgToolName msg) (msgToolArgs msg)
  | m =>
      (⟨msg.id, .error (-32601) "Method not found"
        (some (.str ("Method " ++ jsDisplay m ++ " not found")))⟩, [])

/-- Outcome of the SSE `/message` route. -/
inductive SseEndpointResult : Type
  | authReject (status : Nat) (error : String) (message : String)
  | handled (resp : RpcResponse) (calls : List RemoteCall)

/-- The SSE `/message` POST route: `authenticate` first, dispatcher only on
`next()`. -/
def sseMessagePost (mcpAuthToken : String) (authHeader : Option String)
    (remote : SseRemote) (msg : McpMessage) : SseEndpointResult :=
  match sseAuthenticate mcpAuthToken authHeader with
  | .reject st e m => .authReject st e m
  | .proceed =>
    match sseHandleMessage remote msg with
    | (resp, log) => .handled resp log

/-- Arguments of the `convert_to_subtask` tool of `src/poke-server.ts`
(zod-validated). -/
structure ConvertToSubtaskArgs where
  task_id : String
  parent_task_id : String

/-- Arguments of the `promote_subtask` tool of `src/poke-server.ts`. -/
structure PromoteSubtaskArgs where
  subtask_id : String

/-- The body of the `try` block of `convert_to_subtask`: it throws
unconditionally, before any client call. -/
def convertToSubtaskInner : Except String String :=
  .error "Converting existing tasks to subtasks is not supported in this API version. Please create a new subtask instead."

/-- The `execute` function of the `convert_to_subtask` tool of
`src/poke-server.ts`: the catch block rewraps the inner error with its
`Failed to convert to subtask:` prefix; no remote operation is performed. -/
def convertToSubtaskExecute (_args : ConvertToSubtaskArgs) (_client : Remote) :
    Except String String × List RemoteCall :=
  match convertToSubtaskInner with
  | .ok s => (.ok s, [])
  | .error m => (.error ("Failed to convert to subtask: " ++ m), [])

/-- The body of the `try` block of `promote_subtask`: it throws
unconditionally, before any client call. -/
def promoteSubtaskInner : Except String String :=
  .error "Promoting subtasks to main tasks is not supported in this API version. Please recreate the task as a main task instead."

/-- The `execute` function of the `promote_subtask` tool of
`src/poke-server.ts`. -/
def promoteSubtaskExecute (_args : PromoteSubtaskArgs) (_client : Remote) :
    Except String String × List RemoteCall :=
  match promoteSubtaskInner with
  | .ok s => (.ok s, [])
  | .error m => (.error ("Failed to promote subtask: " ++ m), [])

/-- Oracle fixture: every remote operation fails with the given message. -/
def failingRemote (msg : String) : Remote :=
  { addTask := fun _ => .error msg, getTasks := fun _ => .error msg,
    updateTask := fun _ _ => .error msg, closeTask := fun _ => .error msg,
    deleteTask := fun _ => .error msg, getProjects := .error msg }

/-- Oracle fixture: reads return empty lists, writes echo a fixed record. -/
def quietRemote : Remote :=
  { addTask := fun _ => .ok { id := "t1", content := "stub" },
    getTasks := fun _ => .ok [],
    updateTask := fun _ _ => .ok { id := "t1", content := "stub" },
    closeTask := fun _ => .ok (), deleteTask := fun _ => .ok (),
    getProjects := .ok [] }

/-- SSE oracle fixture: every operation fails with the given message. -/
def sseFailingRemote (msg : String) : SseRemote := fun _ => .error msg

/-- SSE oracle fixture: every operation succeeds with a fixed string. -/
def sseQuietRemote : SseRemote := fun _ => .ok "done"

/-- A fixed wall clock for the closed evaluations. -/
def clock0 : Clock :=
  { today := 0, isoDate := "2025-01-01", isoTimestamp := "2025-01-01T00:00:00.000Z" }

/-- C1: the array-normalizer `extractArray`, applied to any value, realizes
exactly the specification's case analysis (`extractArraySpec`): the value
itself for arrays, the `results` property when it is an array, otherwise the
first array-valued property of an object in defined order, and the empty
array for every other input.  Both sides are total Lean functions, which
captures that no error is ever raised. -/
theorem extractArray_matches_spec (v : JSVal) : extractArray v = extractArraySpec v := by
  cases v with
  | arr l => rfl
  | obj fields =>
    simp only [extractArray, extractArraySpec, JSVal.isArrayB, JSVal.truthy, JSVal.getProp,
      JSVal.isObjectType, JSVal.objectValues, Bool.true_and]
    cases hres : lookupField fields "results" with
    | none =>
      simp only [hres, Option.getD_none]
      cases hfind : (fields.map Prod.snd).find? JSVal.isArrayB with
      | none => simp [hfind, JSVal.isArrayB]
      | some w =>
        have hw := List.find?_some hfind
        cases w <;> simp_all [JSVal.isArrayB, JSVal.arrElems, hfind]
    | some w =>
      simp only [hres, Option.getD_some]
      cases w with
      | arr l => simp [JSVal.isArrayB, JSVal.arrElems]
      | _ =>
        simp only [JSVal.isArrayB, Bool.false_eq_true, if_false, if_true]
        cases hfind : (fields.map Prod.snd).find? JSVal.isArrayB with
        | none => simp [hfind]
        | some w2 =>
          have hw2 := List.find?_some hfind
          cases w2 <;> simp_all [JSVal.isArrayB, JSVal.arrElems, hfind]
  | null => rfl
  | undefined => rfl
  | bool b => cases b <;> rfl
  | num n =>
    simp only [extractArray, extractArraySpec, JSVal.isArrayB, JSVal.truthy, JSVal.getProp,
      JSVal.isObjectType]
    by_cases h : n = 0 <;> simp [h]
  | str s =>
    simp only [extractArray, extractArraySpec, JSVal.isArrayB, JSVal.truthy, JSVal.getProp,
      JSVal.isObjectType]
    by_cases h : s = "" <;> simp [h]

/-- C10: the array-normalizer is total — it returns a list (an array) for
every embedded input by its very type — and idempotent: feeding its own
output back (as the array value it is in JavaScript) returns that output
unchanged. -/
theorem extractArray_total_idempotent (v : JSVal) :
    extractArray (JSVal.arr (extractArray v)) = extractArray v := by
  rfl

/-- Effect of one categorization step on a non-null task: it is appended to
exactly the buckets (and counted in exactly the counters) whose
specification predicate holds. -/
theorem classifyStep_some_spec (today : Int) (ov : Overview) (t : PokeTask) :
    (classifyStep today ov (some t)).overdue
        = ov.overdue ++ (if isOverdueAt today t then [t] else [])
    ∧ (classifyStep today ov (some t)).today
        = ov.today ++ (if isDueTodayAt today t then [t] else [])
    ∧ (classifyStep today ov (some t)).upcoming
        = ov.upcoming ++ (if isUpcomingAt today t then [t] else [])
    ∧ (classifyStep today ov (some t)).completed_today
        = ov.completed_today ++ (if isCompletedTodayAt today t then [t] else [])
    ∧ (classifyStep today ov (some t)).total_counts.overdue
        = ov.total_counts.overdue + (if isOverdueAt today t then 1 else 0)
    ∧ (classifyStep today ov (some t)).total_counts.today
        = ov.total_counts.today + (if isDueTodayAt today t then 1 else 0)
    ∧ (classifyStep today ov (some t)).total_counts.upcoming
        = ov.total_counts.upcoming + (if isUpcomingAt today t then 1 else 0)
    ∧ (classifyStep today ov (some t)).total_counts.completed_today
        = ov.total_counts.completed_today + (if isCompletedTodayAt today t then 1 else 0) := by
  cases hdue : t.due with
  | none =>
    simp [classifyStep, isOverdueAt, isDueTodayAt, isUpcomingAt, isCompletedTodayAt, hdue]
  | some d =>
    cases d with
    | invalid =>
      simp [classifyStep, isOverdueAt, isDueTodayAt, isUpcomingAt, isCompletedTodayAt, hdue,
        jsDateLt, jsDateSameDay, jsDateGe, jsDateLe]
    | valid day =>
      have hup : (today + 1 ≤ day) ↔ (today < day) := Int.add_one_le_iff
      by_cases hc : t.isCompleted <;>
        by_cases h1 : day < today <;>
        by_cases h2 : day = today <;>
        by_cases h3 : today < day <;>
        by_cases h4 : day ≤ today + 7 <;>
        first
        | (exfalso; omega)
        | simp [classifyStep, isOverdueAt, isDueTodayAt, isUpcomingAt, isCompletedTodayAt,
            hdue, jsDateLt, jsDateSameDay, jsDateGe, jsDateLe, hup, hc, h1, h2, h3, h4]

/-- The categorization loop, from any starting accumulator, appends to each
bucket exactly the non-null tasks satisfying that bucket's specification
predicate, in discovery order, and adds their number to that bucket's
counter. -/
theorem categorize_spec (today : Int) (tasks : List (Option PokeTask)) (ov : Overview) :
    (categorize today tasks ov).overdue
        = ov.overdue ++ (tasks.filterMap id).filter (isOverdueAt today)
    ∧ (categorize today tasks ov).today
        = ov.today ++ (tasks.filterMap id).filter (isDueTodayAt today)
    ∧ (categorize today tasks ov).upcoming
        = ov.upcoming ++ (tasks.filterMap id).filter (isUpcomingAt today)
    ∧ (categorize today tasks ov).completed_today
        = ov.completed_today ++ (tasks.filterMap id).filter (isCompletedTodayAt today)
    ∧ (categorize today tasks ov).total_counts.overdue
        = ov.total_counts.overdue + ((tasks.filterMap id).filter (isOverdueAt today)).length
    ∧ (categorize today tasks ov).total_counts.today
        = ov.total_counts.today + ((tasks.filterMap id).filter (isDueTodayAt today)).length
    ∧ (categorize today tasks ov).total_counts.upcoming
        = ov.total_counts.upcoming + ((tasks.filterMap id).filter (isUpcomingAt today)).length
    ∧ (categorize today tasks ov).total_counts.completed_today
        = ov.total_counts.completed_today
            + ((tasks.filterMap id).filter (isCompletedTodayAt today)).length := by
  induction tasks generalizing ov with
  | nil => simp [categorize]
  | cons x xs ih =>
    cases x with
    | none =>
      have h := ih ov
      simpa [categorize, classifyStep] using h
    | some t =>
      obtain ⟨s1, s2, s3, s4, s5, s6, s7, s8⟩ := classifyStep_some_spec today ov t
      obtain ⟨i1, i2, i3, i4, i5, i6, i7, i8⟩ := ih (classifyStep today ov (some t))
      have hcat : categorize today (some t :: xs) ov
          = categorize today xs (classifyStep today ov (some t)) := rfl
      rw [hcat]
      refine ⟨?_, ?_, ?_, ?_, ?_, ?_, ?_, ?_⟩
      · rw [i1, s1]; by_cases hp : isOverdueAt today t <;> simp [List.filter_cons, hp]
      · rw [i2, s2]; by_cases hp : isDueTodayAt today t <;> simp [List.filter_cons, hp]
      · rw [i3, s3]; by_cases hp : isUpcomingAt today t <;> simp [List.filter_cons, hp]
      · rw [i4, s4]; by_cases hp : isCompletedTodayAt today t <;> simp [List.filter_cons, hp]
      · rw [i5, s5]; by_cases hp : isOverdueAt today t <;> (simp [List.filter_cons, hp]; try omega)
      · rw [i6, s6]; by_cases hp : isDueTodayAt today t <;> (simp [List.filter_cons, hp]; try omega)
      · rw [i7, s7]; by_cases hp : isUpcomingAt today t <;> (simp [List.filter_cons, hp]; try omega)
      · rw [i8, s8]; by_cases hp : isCompletedTodayAt today t <;>
          (simp [List.filter_cons, hp]; try omega)

/-- C3: in the daily overview's categorization, a task of the fetched list is
in the overdue bucket iff its due date is strictly before today and it is not
completed; in the today bucket iff its due date equals today and it is not
completed; in the upcoming bucket iff its due date is after today, at most
today plus 7 days, and it is not completed; in the completed-today bucket iff
its due date equals today and it is completed.  A task with no due date, an
unparseable due date, or a due date outside all windows is in none of the
four buckets; the categorization is a total function, so no error is ever
raised. -/
theorem dailyOverview_bucket_spec (today : Int) (tasks : List (Option PokeTask)) (d0 : String) :
    (categorize today tasks { date := d0 }).overdue
        = (tasks.filterMap id).filter (isOverdueAt today)
    ∧ (categorize today tasks { date := d0 }).today
        = (tasks.filterMap id).filter (isDueTodayAt today)
    ∧ (categorize today tasks { date := d0 }).upcoming
        = (tasks.filterMap id).filter (isUpcomingAt today)
    ∧ (categorize today tasks { date := d0 }).completed_today
        = (tasks.filterMap id).filter (isCompletedTodayAt today)
    ∧ (∀ t : PokeTask,
        (t ∈ (categorize today tasks { date := d0 }).overdue
          ↔ t ∈ tasks.filterMap id ∧ isOverdueAt today t = true)
        ∧ (t ∈ (categorize today tasks { date := d0 }).today
          ↔ t ∈ tasks.filterMap id ∧ isDueTodayAt today t = true)
        ∧ (t ∈ (categorize today tasks { date := d0 }).upcoming
          ↔ t ∈ tasks.filterMap id ∧ isUpcomingAt today t = true)
        ∧ (t ∈ (categorize today tasks { date := d0 }).completed_today
          ↔ t ∈ tasks.filterMap id ∧ isCompletedTodayAt today t = true))
    ∧ (∀ t : PokeTask, (t.due = none ∨ t.due = some JsDate.invalid) →
        t ∉ (categorize today tasks { date := d0 }).overdue
        ∧ t ∉ (categorize today tasks { date := d0 }).today
        ∧ t ∉ (categorize today tasks { date := d0 }).upcoming
        ∧ t ∉ (categorize today tasks { date := d0 }).completed_today) := by
  obtain ⟨h1, h2, h3, h4, -, -, -, -⟩ := categorize_spec today tasks { date := d0 }
  simp only [h1, h2, h3, h4]
  have hpredNone : ∀ t : PokeTask, (t.due = none ∨ t.due = some JsDate.invalid) →
      isOverdueAt today t = false ∧ isDueTodayAt today t = false
      ∧ isUpcomingAt today t = false ∧ isCompletedTodayAt today t = false := by
    intro t ht
    rcases ht with h | h <;>
      simp [isOverdueAt, isDueTodayAt, isUpcomingAt, isCompletedTodayAt, h]
  refine ⟨by simp, by simp, by simp, by simp, ?_, ?_⟩
  · intro t
    refine ⟨?_, ?_, ?_, ?_⟩ <;> simp [List.mem_filter]
  · intro t ht
    obtain ⟨p1, p2, p3, p4⟩ := hpredNone t ht
    refine ⟨?_, ?_, ?_, ?_⟩ <;> simp [List.mem_filter, p1, p2, p3, p4]

/-- Witness for C3 at a concrete input: for today = day 10 and a list holding
an overdue task, a completed task due today and a task with no due date, the
bucket characterization instantiates and places the no-due-date task in no
bucket. -/
theorem dailyOverview_bucket_spec_witness :
    ({ content := "no date" } : PokeTask)
        ∉ (categorize 10 [some { content := "late", due := some (.valid 8) },
            some { content := "done", isCompleted := true, due := some (.valid 10) },
            some ({ content := "no date" } : PokeTask)] { date := "2025-01-10" }).overdue := by
  have h := dailyOverview_bucket_spec 10
    [some { content := "late", due := some (.valid 8) },
     some { content := "done", isCompleted := true, due := some (.valid 10) },
     some ({ content := "no date" } : PokeTask)] "2025-01-10"
  exact (h.2.2.2.2.2 { content := "no date" } (Or.inl rfl)).1

/-- The priority comparator is transitive. -/
theorem priorityLe_trans : ∀ a b c : PokeTask, priorityLe a b → priorityLe b c → priorityLe a c := by
  intro a b c hab hbc
  simp only [priorityLe, decide_eq_true_eq] at *
  omega

/-- The priority comparator is total. -/
theorem priorityLe_total : ∀ a b : PokeTask, priorityLe a b || priorityLe b a := by
  intro a b
  simp only [priorityLe, Bool.or_eq_true, decide_eq_true_eq]
  omega

/-- Stable sort followed by truncation: the kept elements are sorted
ascending by priority key, the original list splits (as a multiset) into the
kept elements plus a remainder every element of which has a key at least as
large as every kept key, and the kept length is the minimum of the limit and
the original length. -/
theorem sortTake_spec (l : List PokeTask) (n : Nat) :
    ((l.mergeSort priorityLe).take n).Pairwise (fun a b => priorityKey a ≤ priorityKey b)
    ∧ (∃ rest, List.Perm l ((l.mergeSort priorityLe).take n ++ rest)
        ∧ ∀ a ∈ (l.mergeSort priorityLe).take n, ∀ b ∈ rest, priorityKey a ≤ priorityKey b)
    ∧ ((l.mergeSort priorityLe).take n).length = min n l.length := by
  have hs : (l.mergeSort priorityLe).Pairwise (fun a b => priorityLe a b) :=
    List.sorted_mergeSort priorityLe_trans priorityLe_total l
  have hsplit : (l.mergeSort priorityLe).take n ++ (l.mergeSort priorityLe).drop n
      = l.mergeSort priorityLe := List.take_append_drop n (l.mergeSort priorityLe)
  have hperm : List.Perm l
      ((l.mergeSort priorityLe).take n ++ (l.mergeSort priorityLe).drop n) := by
    rw [hsplit]
    exact (List.mergeSort_perm l priorityLe).symm
  have hpw : ((l.mergeSort priorityLe).take n ++ (l.mergeSort priorityLe).drop n).Pairwise
      (fun a b => priorityLe a b) := by rw [hsplit]; exact hs
  rw [List.pairwise_append] at hpw
  obtain ⟨hpw1, hpw2, hcross⟩ := hpw
  refine ⟨?_, ⟨(l.mergeSort priorityLe).drop n, hperm, ?_⟩, ?_⟩
  · exact hpw1.imp (by intro a b h; simpa [priorityLe] using h)
  · intro a ha b hb
    have := hcross a ha b hb
    simpa [priorityLe] using this
  · rw [List.length_take, List.length_mergeSort]

/-- C4: in the daily overview, the overdue/today/upcoming buckets are sorted
ascending by priority number (absent priority read as 4), the completed-today
bucket keeps its discovery order and is only truncated, every sorted bucket
is truncated to the limit so that the kept elements are lowest-key elements
of the bucket (every dropped element's key is at least every kept key), and
each reported count equals the pre-truncation size of its bucket. -/
theorem dailyOverview_sort_limit_spec (today : Int) (tasks : List (Option PokeTask))
    (d0 : String) (limit : Nat) :
    (sortAndLimit limit (categorize today tasks { date := d0 })).total_counts
        = { overdue := (categorize today tasks { date := d0 }).overdue.length,
            today := (categorize today tasks { date := d0 }).today.length,
            upcoming := (categorize today tasks { date := d0 }).upcoming.length,
            completed_today := (categorize today tasks { date := d0 }).completed_today.length }
    ∧ (sortAndLimit limit (categorize today tasks { date := d0 })).overdue.Pairwise
        (fun a b => priorityKey a ≤ priorityKey b)
    ∧ (sortAndLimit limit (categorize today tasks { date := d0 })).today.Pairwise
        (fun a b => priorityKey a ≤ priorityKey b)
    ∧ (sortAndLimit limit (categorize today tasks { date := d0 })).upcoming.Pairwise
        (fun a b => priorityKey a ≤ priorityKey b)
    ∧ (∃ rest, List.Perm (categorize today tasks { date := d0 }).overdue
          ((sortAndLimit limit (categorize today tasks { date := d0 })).overdue ++ rest)
        ∧ ∀ a ∈ (sortAndLimit limit (categorize today tasks { date := d0 })).overdue,
            ∀ b ∈ rest, priorityKey a ≤ priorityKey b)
    ∧ (∃ rest, List.Perm (categorize today tasks { date := d0 }).today
          ((sortAndLimit limit (categorize today tasks { date := d0 })).today ++ rest)
        ∧ ∀ a ∈ (sortAndLimit limit (categorize today tasks { date := d0 })).today,
            ∀ b ∈ rest, priorityKey a ≤ priorityKey b)
    ∧ (∃ rest, List.Perm (categorize today tasks { date := d0 }).upcoming
          ((sortAndLimit limit (categorize today tasks { date := d0 })).upcoming ++ rest)
        ∧ ∀ a ∈ (sortAndLimit limit (categorize today tasks { date := d0 })).upcoming,
            ∀ b ∈ rest, priorityKey a ≤ priorityKey b)
    ∧ (sortAndLimit limit (categorize today tasks { date := d0 })).overdue.length
        = min limit (categorize today tasks { date := d0 }).overdue.length
    ∧ (sortAndLimit limit (categorize today tasks { date := d0 })).today.length
        = min limit (categorize today tasks { date := d0 }).today.length
    ∧ (sortAndLimit limit (categorize today tasks { date := d0 })).upcoming.length
        = min limit (categorize today tasks { date := d0 }).upcoming.length
    ∧ (sortAndLimit limit (categorize today tasks { date := d0 })).completed_today
        = (categorize today tasks { date := d0 }).completed_today.take limit := by
  obtain ⟨-, -, -, -, c1, c2, c3, c4⟩ := categorize_spec today tasks { date := d0 }
  obtain ⟨ha1, ha2, ha3⟩ := sortTake_spec (categorize today tasks { date := d0 }).overdue limit
  obtain ⟨hb1, hb2, hb3⟩ := sortTake_spec (categorize today tasks { date := d0 }).today limit
  obtain ⟨hc1, hc2, hc3⟩ := sortTake_spec (categorize today tasks { date := d0 }).upcoming limit
  obtain ⟨hd1, hd2, hd3, hd4, -, -, -, -⟩ := categorize_spec today tasks { date := d0 }
  refine ⟨?_, ha1, hb1, hc1, ha2, hb2, hc2, ha3, hb3, hc3, rfl⟩
  have e1 : (categorize today tasks { date := d0 }).total_counts.overdue
      = (categorize today tasks { date := d0 }).overdue.length := by
    rw [c1, hd1]; simp
  have e2 : (categorize today tasks { date := d0 }).total_counts.today
      = (categorize today tasks { date := d0 }).today.length := by
    rw [c2, hd2]; simp
  have e3 : (categorize today tasks { date := d0 }).total_counts.upcoming
      = (categorize today tasks { date := d0 }).upcoming.length := by
    rw [c3, hd3]; simp
  have e4 : (categorize today tasks { date := d0 }).total_counts.completed_today
      = (categorize today tasks { date := d0 }).completed_today.length := by
    rw [c4, hd4]; simp
  simp only [sortAndLimit]
  cases hco : (categorize today tasks { date := d0 }).total_counts
  simp_all

/-- Witness for C4 at a concrete input: with fifteen overdue tasks and
limit 10, the reported overdue count is 15 while the returned overdue bucket
holds 10 tasks. -/
theorem dailyOverview_sort_limit_spec_witness :
    (sortAndLimit 10 (categorize 0 c4Tasks { date := "2025-01-01" })).total_counts.overdue = 15
    ∧ (sortAndLimit 10 (categorize 0 c4Tasks { date := "2025-01-01" })).overdue.length = 10 := by
  have h := dailyOverview_sort_limit_spec 0 c4Tasks "2025-01-01" 10
  constructor
  · rw [h.1]
    decide
  · rw [h.2.2.2.2.2.2.2.1]
    decide

/-- C2 (code defect): `get_daily_overview` derives "today" from the wall
clock (`new Date()`), not from the supplied as-of date argument.  With the
same task list and the same explicit date argument `"2025-01-05"`, a task
due on day 5 is classified into the today bucket when the wall clock stands
on day 5 but into the overdue bucket when the wall clock stands on day 7;
the date argument only changes the overview's displayed date field, which is
identical in both runs.  This contradicts the specification's contract that
classification compares against today derived from the as-of date. -/
theorem dailyOverview_classifies_by_wall_clock :
    (computeDailyOverview c2Args c2ClockOnDay [some c2Task]).date
        = (computeDailyOverview c2Args c2ClockLater [some c2Task]).date
    ∧ (computeDailyOverview c2Args c2ClockOnDay [some c2Task]).today = [c2Task]
    ∧ (computeDailyOverview c2Args c2ClockOnDay [some c2Task]).overdue = []
    ∧ (computeDailyOverview c2Args c2ClockLater [some c2Task]).today = []
    ∧ (computeDailyOverview c2Args c2ClockLater [some c2Task]).overdue = [c2Task] := by
  refine ⟨?_, ?_, ?_, ?_, ?_⟩ <;>
    simp [computeDailyOverview, sortAndLimit, categorize, classifyStep, resolveLimit,
      c2Task, c2Args, c2ClockOnDay, c2ClockLater, jsDateLt, jsDateSameDay, jsDateGe, jsDateLe]

/-- C5 (code defect): a `tools/call` naming an unregistered tool does not
produce a "method not found" error from either dispatcher.  The poke server's
default case returns a success result with a "not yet implemented" text; the
SSE dispatcher's default case does build a `-32601` response object, but the
post-switch `if (result !== undefined)` rebuilds the response and discards
it, so the caller receives a `{success: true}` success result.  Only the
second half of the claim holds: no handler runs and no remote operation is
invoked (the call log is empty in every case). -/
theorem unknown_tool_not_method_not_found :
    "nonexistent_tool" ∉ pokeRegisteredToolNames
    ∧ "nonexistent_tool" ∉ sseRegisteredToolNames
    ∧ pokeToolCall quietRemote true clock0 (.num 7) (.str "nonexistent_tool") []
        = (⟨.num 7, .result (pokeContentResult
            "Tool nonexistent_tool is not yet implemented in this simplified version.")⟩, [])
    ∧ sseRunTool sseQuietRemote (.str "nonexistent_tool") []
        = (.ok (none, some (.error (-32601) "Method not found"
            (some (.str "Tool nonexistent_tool not found")))), [])
    ∧ sseToolCall sseQuietRemote (.num 7) (.str "nonexistent_tool") []
        = (⟨.num 7, .result (.obj [("success", .bool true)])⟩, []) := by
  refine ⟨by decide, by decide, rfl, rfl, rfl⟩

/-- C6, counterexample: a `create_task` invocation with no `content` argument
does reach the remote collaborator on the poke dispatcher — `addTask` is
called — and a failure comes back as a `-32603` internal error, not as an
"invalid params" error; argument validation never happens there. -/
theorem createTask_missing_content_calls_remote :
    (pokeRunTool quietRemote true clock0 (.str "create_task") []).2 = [RemoteCall.addTask]
    ∧ pokeToolCall (failingRemote "content must be provided") true clock0
        (.num 1) (.str "create_task") []
        = (⟨.num 1, .error (-32603) "Internal error"
            (some (.str "content must be provided"))⟩, [.addTask]) :=
  ⟨rfl, rfl⟩

/-- C6 (amended): the two dispatchers diverge on a missing required
argument.  The SSE dispatcher rejects `todoist_task_create` without a valid
`content` with a `-32602` "Invalid params" error and calls no remote
operation; the poke dispatcher performs no argument validation and always
forwards `create_task` to the remote `addTask`, whatever the arguments. -/
theorem missing_required_arg_behavior :
    (∀ (remote : SseRemote) (msgId : JSVal) (args : List (String × JSVal)),
      isCreateTaskArgs args = false →
        sseToolCall remote msgId (.str "todoist_task_create") args
          = (⟨msgId, .error (-32602) "Invalid params"
              (some (.str "Invalid arguments for todoist_task_create"))⟩, []))
    ∧ (∀ (remote : Remote) (authEnabled : Bool) (clock : Clock)
        (args : List (String × JSVal)),
        (pokeRunTool remote authEnabled clock (.str "create_task") args).2
          = [RemoteCall.addTask]) := by
  constructor
  · intro remote msgId args h
    simp only [sseToolCall, sseRunTool, sseToolTable, lookupAssoc]
    simp [h]
  · intro remote authEnabled clock args
    simp only [pokeRunTool]
    cases remote.addTask
        { content := argVal args "content", description := argVal args "description",
          dueString := argVal args "due_string", priority := argVal args "priority",
          projectId := argVal args "project_id" } <;> simp

/-- Witness for C6's amended statement at a concrete input: empty arguments
fail the guard and yield the invalid-params rejection with no remote call. -/
theorem missing_required_arg_behavior_witness :
    sseToolCall sseQuietRemote (.num 2) (.str "todoist_task_create") []
      = (⟨.num 2, .error (-32602) "Invalid params"
          (some (.str "Invalid arguments for todoist_task_create"))⟩, []) :=
  missing_required_arg_behavior.1 sseQuietRemote (.num 2) [] (by decide)

/-- C7, counterexample: on the SSE dispatcher a handler failure (here the
remote `getTasks` failing with "boom") is returned as a `-32602`
"Invalid params" error — not as a response of the `-32603` internal-error
class the claim requires. -/
theorem sse_handler_error_maps_to_invalid_params :
    sseToolCall (sseFailingRemote "boom") (.num 3) (.str "todoist_task_get") []
        = (⟨.num 3, .error (-32602) "Invalid params" (some (.str "boom"))⟩, [.getTasks])
    ∧ ((-32602 : Int) ≠ -32603) :=
  ⟨rfl, by decide⟩

/-- C7 (amended): every handler failure is caught and answered — never
rethrown — but the two dispatchers label it differently: the poke dispatcher
returns a `-32603` "Internal error" response carrying the original message
as data, while the SSE dispatcher returns a `-32602` "Invalid params"
response carrying the original message as data (its single catch conflates
validation and execution failures). -/
theorem handler_error_response_classes :
    (∀ (remote : Remote) (authEnabled : Bool) (clock : Clock) (msgId toolName : JSVal)
        (args : List (String × JSVal)) (m : String) (log : List RemoteCall),
      pokeRunTool remote authEnabled clock toolName args = (.error m, log) →
        pokeToolCall remote authEnabled clock msgId toolName args
          = (⟨msgId, .error (-32603) "Internal error" (some (.str m))⟩, log))
    ∧ (∀ (remote : SseRemote) (msgId toolName : JSVal) (args : List (String × JSVal))
        (m : String) (log : List RemoteCall),
      sseRunTool remote toolName args = (.error m, log) →
        sseToolCall remote msgId toolName args
          = (⟨msgId, .error (-32602) "Invalid params" (some (.str m))⟩, log)) := by
  constructor
  · intro remote authEnabled clock msgId toolName args m log h
    simp [pokeToolCall, h]
  · intro remote msgId toolName args m log h
    simp [sseToolCall, h]

/-- Witness for C7's amended statement at a concrete input: a failing remote
behind `get_tasks` yields the poke dispatcher's internal-error response. -/
theorem handler_error_response_classes_witness :
    pokeToolCall (failingRemote "boom") true clock0 (.num 4) (.str "get_tasks") []
      = (⟨.num 4, .error (-32603) "Internal error" (some (.str "boom"))⟩, [.getTasks]) :=
  handler_error_response_classes.1 (failingRemote "boom") true clock0 (.num 4)
    (.str "get_tasks") [] "boom" [.getTasks] rfl

/-- C8, counterexample: on the SSE server an Authorization header that is
not in Bearer format but whose whole value equals the secret passes
authentication, and the dispatcher is entered (the request is handled, not
rejected as unauthorized) — contrary to the claim that every non-Bearer
header is rejected. -/
theorem sse_accepts_bare_token_header :
    sseAuthenticate "tok" (some "tok") = SseAuthOutcome.proceed
    ∧ sseMessagePost "tok" (some "tok") sseQuietRemote
        { method := .str "tools/call", id := .num 5,
          params := some { name := .str "nonexistent_tool" } }
        = .handled ⟨.num 5, .result (.obj [("success", .bool true)])⟩ [] :=
  ⟨rfl, rfl⟩

/-- C8 (amended): the poke server's authentication behaves exactly as
claimed — with no secret configured every request bypasses the check; with a
secret, a missing header, a non-Bearer header, or a wrong token is rejected
with a 401 response and the dispatcher is never entered, while a matching
Bearer token proceeds to the dispatcher.  The SSE server rejects a missing
header (401) and a mismatched token (403), but derives the token from a
non-Bearer header as the whole header value, so such a header is accepted
whenever it equals the secret. -/
theorem authentication_behavior :
    (∀ (h : Option String) (remote : Remote) (clock : Clock) (msg : McpMessage),
      pokeMcpPost none h remote clock msg
        = .handled (pokeHandleMessage remote false clock msg).1
            (pokeHandleMessage remote false clock msg).2)
    ∧ (∀ (s : String) (remote : Remote) (clock : Clock) (msg : McpMessage),
      pokeMcpPost (some s) none remote clock msg
        = .authReject 401 ⟨.null, .error (-32600) "Missing Authorization header" none⟩)
    ∧ (∀ (s hdr : String) (remote : Remote) (clock : Clock) (msg : McpMessage),
        strStartsWith hdr "Bearer " = false →
          pokeMcpPost (some s) (some hdr) remote clock msg
            = .authReject 401 ⟨.null, .error (-32600)
                "Invalid Authorization header format. Use: Bearer YOUR_TOKEN" none⟩)
    ∧ (∀ (s hdr : String) (remote : Remote) (clock : Clock) (msg : McpMessage),
        strStartsWith hdr "Bearer " = true → strDrop hdr 7 ≠ s →
          pokeMcpPost (some s) (some hdr) remote clock msg
            = .authReject 401 ⟨.null, .error (-32600) "Invalid authentication token" none⟩)
    ∧ (∀ (s hdr : String) (remote : Remote) (clock : Clock) (msg : McpMessage),
        strStartsWith hdr "Bearer " = true → strDrop hdr 7 = s →
          pokeMcpPost (some s) (some hdr) remote clock msg
            = .handled (pokeHandleMessage remote true clock msg).1
                (pokeHandleMessage remote true clock msg).2)
    ∧ (∀ s : String, sseAuthenticate s none
        = .reject 401 "Unauthorized"
            "Missing Authorization header. Use: Authorization: Bearer YOUR_MCP_AUTH_TOKEN")
    ∧ (∀ s hdr : String,
        (if strStartsWith hdr "Bearer " then strDrop hdr 7 else hdr) = s →
          sseAuthenticate s (some hdr) = .proceed)
    ∧ (∀ s hdr : String,
        (if strStartsWith hdr "Bearer " then strDrop hdr 7 else hdr) ≠ s →
          sseAuthenticate s (some hdr)
            = .reject 403 "Forbidden" "Invalid authentication token") := by
  refine ⟨?_, ?_, ?_, ?_, ?_, ?_, ?_, ?_⟩
  · intro h remote clock msg
    simp [pokeMcpPost, pokeAuthenticate]
  · intro s remote clock msg
    simp [pokeMcpPost, pokeAuthenticate]
  · intro s hdr remote clock msg h1
    simp [pokeMcpPost, pokeAuthenticate, h1]
  · intro s hdr remote clock msg h1 h2
    simp [pokeMcpPost, pokeAuthenticate, h1, h2]
  · intro s hdr remote clock msg h1 h2
    simp [pokeMcpPost, pokeAuthenticate, h1, h2]
  · intro s
    rfl
  · intro s hdr h1
    simp [sseAuthenticate, h1]
  · intro s hdr h1
    simp [sseAuthenticate, h1]

/-- Witness for C8's amended statement at concrete inputs: a non-Bearer
header is rejected by the poke server with the format error, and the
rejection carries no dispatcher activity. -/
theorem authentication_behavior_witness :
    pokeMcpPost (some "sec") (some "tok") quietRemote clock0 { method := .str "tools/list" }
      = .authReject 401 ⟨.null, .error (-32600)
          "Invalid Authorization header format. Use: Bearer YOUR_TOKEN" none⟩ :=
  authentication_behavior.2.2.1 "sec" "tok" quietRemote clock0
    { method := .str "tools/list" } (by decide)

/-- C9: the `convert_to_subtask` and `promote_subtask` tools of
`src/poke-server.ts` fail on every invocation, whatever the arguments and
whatever the remote client would answer, with their fixed descriptive
messages, and perform no remote operation (the call log is empty); they
never succeed. -/
theorem unsupported_subtask_ops_always_fail (a : ConvertToSubtaskArgs) (r : Remote)
    (b : PromoteSubtaskArgs) (r2 : Remote) :
    convertToSubtaskExecute a r
        = (.error ("Failed to convert to subtask: "
            ++ "Converting existing tasks to subtasks is not supported in this API version. Please create a new subtask instead."),
           [])
    ∧ promoteSubtaskExecute b r2
        = (.error ("Failed to promote subtask: "
            ++ "Promoting subtasks to main tasks is not supported in this API version. Please recreate the task as a main task instead."),
           []) :=
  ⟨rfl, rfl⟩
